import Mathlib

/-!
Shallow embedding of `src/lib/three/luminance.ts` from the hidden-galaxy
repository.  Numbers are modelled as rationals (the source computations are
all rational: fixed decimal coefficients, division, linear blending).  The
`throw new Error(...)` path is modelled with `Except String`, the error value
carrying the offending input string, exactly as the thrown message does.
-/

namespace HiddenGalaxy

/-- Normalized RGB triple, the return shape of `hexToRgb`. -/
structure Rgb where
  r : ℚ
  g : ℚ
  b : ℚ
deriving DecidableEq, Repr

/-- Rec. 709 luma coefficients (`REC709_COEFFICIENTS` in the source). -/
def REC709_red : ℚ := 0.2126

/-- Green coefficient of `REC709_COEFFICIENTS`. -/
def REC709_green : ℚ := 0.7152

/-- Blue coefficient of `REC709_COEFFICIENTS`. -/
def REC709_blue : ℚ := 0.0722

/-- Value of a hex digit, matching the character class `[0-9A-Fa-f]` and the
digit values used by `parseInt(_, 16)`; `none` for non-hex characters.
Character ranges are expressed on code points (48–57 = `0`–`9`,
97–102 = `a`–`f`, 65–70 = `A`–`F`). -/
def hexDigitVal (c : Char) : Option Nat :=
  let n := c.toNat
  if 48 ≤ n ∧ n ≤ 57 then some (n - 48)
  else if 97 ≤ n ∧ n ≤ 102 then some (n - 97 + 10)
  else if 65 ≤ n ∧ n ≤ 70 then some (n - 65 + 10)
  else none

/-- JavaScript `hex.replace('#', '')` with a string pattern: removes only the
FIRST occurrence of `'#'`, wherever it appears in the string. -/
def replaceFirstHash : List Char → List Char
  | [] => []
  | c :: cs => if c = '#' then cs else c :: replaceFirstHash cs

/-- The regex test `/^[0-9A-Fa-f]{6}$/.test cleanHex`: exactly six hex
digits. -/
def validSixHex (l : List Char) : Bool :=
  l.length == 6 && l.all fun c => (hexDigitVal c).isSome

/-- `parseInt(two-digit-string, 16)` on an (already validated) hex pair. -/
def parseHexPair (l : List Char) : Nat :=
  l.foldl (fun acc c => 16 * acc + (hexDigitVal c).getD 0) 0

/-- The parsing step of `hexToRgb` on the cleaned six-character string:
`substring(0,2)`, `substring(2,4)`, `substring(4,6)`, each parsed base 16 and
divided by 255. -/
def parseSix (l : List Char) : Rgb where
  r := (parseHexPair (l.take 2) : ℚ) / 255
  g := (parseHexPair ((l.drop 2).take 2) : ℚ) / 255
  b := (parseHexPair ((l.drop 4).take 2) : ℚ) / 255

/-- `hexToRgb`: remove the first `'#'` (JS `replace` with a string pattern),
validate against `[0-9A-Fa-f]{6}`, then parse the three channels.  The thrown
`Invalid hex color: ${hex}` error is modelled as `Except.error hex`. -/
def hexToRgb (hex : String) : Except String Rgb :=
  let cleanHex := replaceFirstHash hex.data
  if validSixHex cleanHex then Except.ok (parseSix cleanHex)
  else Except.error hex

/-- `calculateLuminance`: the fixed Rec. 709 linear functional. -/
def calculateLuminance (rgb : Rgb) : ℚ :=
  REC709_red * rgb.r + REC709_green * rgb.g + REC709_blue * rgb.b

/-- `calculateEmissiveIntensity hexColor targetLuminance` (full
compensation).  The zero-luminance branch returns the fallback 1.0; otherwise
`targetLuminance / baseLuminance`. -/
def calculateEmissiveIntensity (hexColor : String) (targetLuminance : ℚ) :
    Except String ℚ :=
  match hexToRgb hexColor with
  | Except.error e => Except.error e
  | Except.ok rgb =>
    let baseLuminance := calculateLuminance rgb
    if baseLuminance = 0 then Except.ok 1.0
    else Except.ok (targetLuminance / baseLuminance)

/-- `calculateArtisticIntensity hexColor targetLuminance compensationFactor`:
zero-luminance fallback 1.0, otherwise the linear blend
`1.0 + (fullCompensation - 1.0) * compensationFactor`. -/
def calculateArtisticIntensity (hexColor : String) (targetLuminance : ℚ)
    (compensationFactor : ℚ) : Except String ℚ :=
  match hexToRgb hexColor with
  | Except.error e => Except.error e
  | Except.ok rgb =>
    let baseLuminance := calculateLuminance rgb
    if baseLuminance = 0 then Except.ok 1.0
    else
      let fullCompensation := targetLuminance / baseLuminance
      Except.ok (1.0 + (fullCompensation - 1.0) * compensationFactor)

/-- `getColorLuminance`: `hexToRgb` then `calculateLuminance`, as written in
the source. -/
def getColorLuminance (hexColor : String) : Except String ℚ :=
  match hexToRgb hexColor with
  | Except.error e => Except.error e
  | Except.ok rgb => Except.ok (calculateLuminance rgb)

/-- The spec's description of `getColorLuminance` as a pure composition of
the decoder and the luminance evaluator, for the refinement claim. -/
def getColorLuminanceSpec (hexColor : String) : Except String ℚ :=
  Except.map calculateLuminance (hexToRgb hexColor)

instance {ε α : Type} [DecidableEq ε] [DecidableEq α] : DecidableEq (Except ε α) :=
  fun x y =>
    match x, y with
    | Except.ok a, Except.ok b =>
      if h : a = b then isTrue (by rw [h]) else isFalse (fun hc => h (Except.ok.inj hc))
    | Except.error a, Except.error b =>
      if h : a = b then isTrue (by rw [h]) else isFalse (fun hc => h (Except.error.inj hc))
    | Except.ok _, Except.error _ => isFalse (fun hc => Except.noConfusion hc)
    | Except.error _, Except.ok _ => isFalse (fun hc => Except.noConfusion hc)

/-- Evaluation helper: compute `hexToRgb` on a concrete string by discharging
the character-level steps with `decide` and the rational arithmetic with
`norm_num`. -/
theorem hexToRgb_eval (s : String) (l : List Char) (hl : replaceFirstHash s.data = l)
    (hv : validSixHex l = true) (n1 n2 n3 : ℕ)
    (h1 : parseHexPair (l.take 2) = n1) (h2 : parseHexPair ((l.drop 2).take 2) = n2)
    (h3 : parseHexPair ((l.drop 4).take 2) = n3) (q1 q2 q3 : ℚ)
    (e1 : (n1 : ℚ)/255 = q1) (e2 : (n2 : ℚ)/255 = q2) (e3 : (n3 : ℚ)/255 = q3) :
    hexToRgb s = Except.ok ⟨q1, q2, q3⟩ := by
  unfold hexToRgb
  rw [hl, if_pos hv]
  unfold parseSix
  rw [h1, h2, h3, e1, e2, e3]

/-- Each hex-digit value (defaulted to 0) is at most 15. -/
theorem hexDigitValD_le (c : Char) : (hexDigitVal c).getD 0 ≤ 15 := by
  unfold hexDigitVal
  dsimp only
  split
  · simp only [Option.getD_some]; omega
  · split
    · simp only [Option.getD_some]; omega
    · split
      · simp only [Option.getD_some]; omega
      · simp

/-- `parseHexPair` on a list of at most two characters is at most 255. -/
theorem parseHexPair_le (l : List Char) (h : l.length ≤ 2) : parseHexPair l ≤ 255 := by
  match l with
  | [] => simp [parseHexPair]
  | [a] =>
    have := hexDigitValD_le a
    simp only [parseHexPair, List.foldl]
    omega
  | [a, b] =>
    have ha := hexDigitValD_le a
    have hb := hexDigitValD_le b
    simp only [parseHexPair, List.foldl]
    omega
  | _ :: _ :: _ :: _ => simp at h

/-- All components produced by the parsing step lie in `[0, 1]`. -/
theorem parseSix_bounds (l : List Char) :
    0 ≤ (parseSix l).r ∧ (parseSix l).r ≤ 1 ∧ 0 ≤ (parseSix l).g ∧ (parseSix l).g ≤ 1 ∧
      0 ≤ (parseSix l).b ∧ (parseSix l).b ≤ 1 := by
  have h1 : parseHexPair (l.take 2) ≤ 255 := by
    apply parseHexPair_le
    simp [List.length_take]
  have h2 : parseHexPair ((l.drop 2).take 2) ≤ 255 := by
    apply parseHexPair_le
    simp [List.length_take]
  have h3 : parseHexPair ((l.drop 4).take 2) ≤ 255 := by
    apply parseHexPair_le
    simp [List.length_take]
  unfold parseSix
  refine ⟨by positivity, ?_, by positivity, ?_, by positivity, ?_⟩ <;>
    rw [div_le_one (by norm_num)] <;> exact_mod_cast by assumption

/-- Any successful decode has all components in `[0, 1]`. -/
theorem hexToRgb_ok_bounds (s : String) (rgb : Rgb) (h : hexToRgb s = Except.ok rgb) :
    0 ≤ rgb.r ∧ rgb.r ≤ 1 ∧ 0 ≤ rgb.g ∧ rgb.g ≤ 1 ∧ 0 ≤ rgb.b ∧ rgb.b ≤ 1 := by
  unfold hexToRgb at h
  by_cases hv : validSixHex (replaceFirstHash s.data) = true
  · rw [if_pos hv] at h
    cases Except.ok.inj h
    exact parseSix_bounds _
  · rw [if_neg hv] at h
    exact absurd h (fun hc => Except.noConfusion hc)

/-- On a successful decode with nonzero luminance, full compensation returns
the quotient exactly. -/
theorem emissive_ok (c : String) (t : ℚ) (rgb : Rgb) (h : hexToRgb c = Except.ok rgb)
    (hL : calculateLuminance rgb ≠ 0) :
    calculateEmissiveIntensity c t = Except.ok (t / calculateLuminance rgb) := by
  unfold calculateEmissiveIntensity
  rw [h]
  dsimp only
  rw [if_neg hL]

/-- On a successful decode with zero luminance, full compensation returns the
fallback 1.0. -/
theorem emissive_zero (c : String) (t : ℚ) (rgb : Rgb) (h : hexToRgb c = Except.ok rgb)
    (hL : calculateLuminance rgb = 0) :
    calculateEmissiveIntensity c t = Except.ok 1 := by
  unfold calculateEmissiveIntensity
  rw [h]
  dsimp only
  rw [if_pos hL]
  norm_num

/-- On a successful decode with nonzero luminance, artistic compensation
returns the linear blend exactly. -/
theorem artistic_ok (c : String) (t f : ℚ) (rgb : Rgb) (h : hexToRgb c = Except.ok rgb)
    (hL : calculateLuminance rgb ≠ 0) :
    calculateArtisticIntensity c t f =
      Except.ok (1 + (t / calculateLuminance rgb - 1) * f) := by
  unfold calculateArtisticIntensity
  rw [h]
  dsimp only
  rw [if_neg hL]
  norm_num

/-- On a successful decode with zero luminance, artistic compensation returns
the fallback 1.0. -/
theorem artistic_zero (c : String) (t f : ℚ) (rgb : Rgb) (h : hexToRgb c = Except.ok rgb)
    (hL : calculateLuminance rgb = 0) :
    calculateArtisticIntensity c t f = Except.ok 1 := by
  unfold calculateArtisticIntensity
  rw [h]
  dsimp only
  rw [if_pos hL]
  norm_num

/-- Hex digits are never the hash character. -/
theorem hexDigit_ne_hash (c : Char) (h : (hexDigitVal c).isSome = true) : c ≠ '#' :=
  fun hc => absurd h (by rw [hc]; decide)

/-- Removing the first hash from a hash-free list is the identity. -/
theorem replaceFirstHash_of_no_hash (l : List Char) (h : ∀ c ∈ l, c ≠ '#') :
    replaceFirstHash l = l := by
  induction l with
  | nil => rfl
  | cons c cs ih =>
    unfold replaceFirstHash
    rw [if_neg (h c (List.mem_cons_self c cs))]
    rw [ih (fun d hd => h d (List.mem_cons_of_mem c hd))]

/-- Evaluation helper for `hexToRgb` on an invalid concrete string. -/
theorem hexToRgb_error_eval (s : String) (l : List Char) (hl : replaceFirstHash s.data = l)
    (hv : validSixHex l = false) : hexToRgb s = Except.error s := by
  unfold hexToRgb
  have hnv : ¬ (validSixHex l = true) := by simp [hv]
  rw [hl, if_neg hnv]

/-- Evaluation helper for `calculateLuminance` on an explicit triple. -/
theorem lum_mk (r g b L : ℚ) (h : 0.2126 * r + 0.7152 * g + 0.0722 * b = L) :
    calculateLuminance ⟨r, g, b⟩ = L := by
  unfold calculateLuminance REC709_red REC709_green REC709_blue
  exact h

/-- Evaluation helper for full compensation on concrete inputs. -/
theorem emissive_eval (s : String) (t : ℚ) (rgb : Rgb) (q : ℚ)
    (h : hexToRgb s = Except.ok rgb) (hL : calculateLuminance rgb ≠ 0)
    (hq : t / calculateLuminance rgb = q) :
    calculateEmissiveIntensity s t = Except.ok q := by
  rw [emissive_ok s t rgb h hL, hq]

/-- Evaluation helper for artistic compensation on concrete inputs. -/
theorem artistic_eval (s : String) (t f : ℚ) (rgb : Rgb) (q : ℚ)
    (h : hexToRgb s = Except.ok rgb) (hL : calculateLuminance rgb ≠ 0)
    (hq : 1 + (t / calculateLuminance rgb - 1) * f = q) :
    calculateArtisticIntensity s t f = Except.ok q := by
  rw [artistic_ok s t f rgb h hL, hq]

/-- Decoded value of magenta. -/
theorem hexToRgb_magenta : hexToRgb "#ff00ff" = Except.ok ⟨1, 0, 1⟩ :=
  hexToRgb_eval "#ff00ff" ['f','f','0','0','f','f'] (by decide) (by decide) 255 0 255
    (by decide) (by decide) (by decide) _ _ _ (by norm_num) (by norm_num) (by norm_num)

/-- Decoded value of cyan. -/
theorem hexToRgb_cyan : hexToRgb "#00ffff" = Except.ok ⟨0, 1, 1⟩ :=
  hexToRgb_eval "#00ffff" ['0','0','f','f','f','f'] (by decide) (by decide) 0 255 255
    (by decide) (by decide) (by decide) _ _ _ (by norm_num) (by norm_num) (by norm_num)

/-- Decoded value of yellow. -/
theorem hexToRgb_yellow : hexToRgb "#ffff00" = Except.ok ⟨1, 1, 0⟩ :=
  hexToRgb_eval "#ffff00" ['f','f','f','f','0','0'] (by decide) (by decide) 255 255 0
    (by decide) (by decide) (by decide) _ _ _ (by norm_num) (by norm_num) (by norm_num)

/-- Decoded value of white. -/
theorem hexToRgb_white : hexToRgb "#ffffff" = Except.ok ⟨1, 1, 1⟩ :=
  hexToRgb_eval "#ffffff" ['f','f','f','f','f','f'] (by decide) (by decide) 255 255 255
    (by decide) (by decide) (by decide) _ _ _ (by norm_num) (by norm_num) (by norm_num)

/-- Decoded value of black. -/
theorem hexToRgb_black : hexToRgb "#000000" = Except.ok ⟨0, 0, 0⟩ :=
  hexToRgb_eval "#000000" ['0','0','0','0','0','0'] (by decide) (by decide) 0 0 0
    (by decide) (by decide) (by decide) _ _ _ (by norm_num) (by norm_num) (by norm_num)

/-- Luminance of magenta. -/
theorem lum_magenta : calculateLuminance ⟨1, 0, 1⟩ = 0.2848 :=
  lum_mk 1 0 1 0.2848 (by norm_num)

/-- Luminance of cyan. -/
theorem lum_cyan : calculateLuminance ⟨0, 1, 1⟩ = 0.7874 :=
  lum_mk 0 1 1 0.7874 (by norm_num)

/-- Luminance of yellow. -/
theorem lum_yellow : calculateLuminance ⟨1, 1, 0⟩ = 0.9278 :=
  lum_mk 1 1 0 0.9278 (by norm_num)

/-- Luminance of white. -/
theorem lum_white : calculateLuminance ⟨1, 1, 1⟩ = 1 :=
  lum_mk 1 1 1 1 (by norm_num)

/-- Luminance of black. -/
theorem lum_black : calculateLuminance ⟨0, 0, 0⟩ = 0 :=
  lum_mk 0 0 0 0 (by norm_num)

/-- C7: `calculateLuminance` returns exactly `0.2126·r + 0.7152·g + 0.0722·b`
(it is total, so it never fails), and for every triple with each component in
`[0, 1]` the result lies in `[0, 1]` and equals 0 only when `r = g = b = 0`. -/
theorem C7_luminance_formula_and_range (rgb : Rgb) :
    calculateLuminance rgb = 0.2126 * rgb.r + 0.7152 * rgb.g + 0.0722 * rgb.b ∧
    (0 ≤ rgb.r → rgb.r ≤ 1 → 0 ≤ rgb.g → rgb.g ≤ 1 → 0 ≤ rgb.b → rgb.b ≤ 1 →
      0 ≤ calculateLuminance rgb ∧ calculateLuminance rgb ≤ 1 ∧
      (calculateLuminance rgb = 0 ↔ rgb.r = 0 ∧ rgb.g = 0 ∧ rgb.b = 0)) := by
  unfold calculateLuminance REC709_red REC709_green REC709_blue
  refine ⟨rfl, fun hr0 hr1 hg0 hg1 hb0 hb1 => ⟨by linarith, by linarith, ?_⟩⟩
  constructor
  · intro h
    refine ⟨by linarith, by linarith, by linarith⟩
  · rintro ⟨h1, h2, h3⟩
    rw [h1, h2, h3]
    ring

/-- C7 witness: the general theorem instantiated at magenta `(1, 0, 1)`. -/
theorem C7_witness :
    calculateLuminance ⟨1, 0, 1⟩ = 0.2126 * 1 + 0.7152 * 0 + 0.0722 * 1 ∧
    0 ≤ calculateLuminance ⟨1, 0, 1⟩ ∧ calculateLuminance ⟨1, 0, 1⟩ ≤ 1 ∧
    (calculateLuminance ⟨1, 0, 1⟩ = 0 ↔ (1 : ℚ) = 0 ∧ (0 : ℚ) = 0 ∧ (1 : ℚ) = 0) := by
  have h := C7_luminance_formula_and_range ⟨1, 0, 1⟩
  have h2 := h.2 (by norm_num) (by norm_num) (by norm_num) (by norm_num)
    (by norm_num) (by norm_num)
  exact ⟨h.1, h2.1, h2.2.1, h2.2.2⟩

/-- C10: all three Rec. 709 coefficients are strictly positive, so
`calculateLuminance` is strictly monotone in each channel separately. -/
theorem C10_monotone_channels (rgb : Rgb) (x : ℚ) :
    0 < REC709_red ∧ 0 < REC709_green ∧ 0 < REC709_blue ∧
    (rgb.r < x → calculateLuminance rgb < calculateLuminance ⟨x, rgb.g, rgb.b⟩) ∧
    (rgb.g < x → calculateLuminance rgb < calculateLuminance ⟨rgb.r, x, rgb.b⟩) ∧
    (rgb.b < x → calculateLuminance rgb < calculateLuminance ⟨rgb.r, rgb.g, x⟩) := by
  unfold calculateLuminance REC709_red REC709_green REC709_blue
  dsimp only
  refine ⟨by norm_num, by norm_num, by norm_num,
    fun h => by linarith, fun h => by linarith, fun h => by linarith⟩

/-- C10 witness: raising the red channel from 0 to 1 strictly raises the
luminance. -/
theorem C10_witness : calculateLuminance ⟨0, 0, 0⟩ < calculateLuminance ⟨1, 0, 0⟩ :=
  (C10_monotone_channels ⟨0, 0, 0⟩ 1).2.2.2.1 (by norm_num)

/-- C9: `getColorLuminance` is exactly the composition of the decoder with the
luminance evaluator, and it propagates the decoder's error unchanged. -/
theorem C9_accessor_is_composition (c : String) :
    getColorLuminance c = getColorLuminanceSpec c ∧
    (∀ e, hexToRgb c = Except.error e → getColorLuminance c = Except.error e) := by
  unfold getColorLuminance getColorLuminanceSpec Except.map
  cases h : hexToRgb c with
  | error e =>
    refine ⟨rfl, fun d hd => ?_⟩
    rw [← Except.error.inj hd]
  | ok rgb => exact ⟨rfl, fun d hd => absurd hd (fun hc => Except.noConfusion hc)⟩

/-- C9 witness: the composition theorem applied to an invalid input, with the
error-propagation hypothesis discharged concretely. -/
theorem C9_witness : getColorLuminance "zz" = Except.error "zz" :=
  (C9_accessor_is_composition "zz").2 "zz"
    (hexToRgb_error_eval "zz" ['z','z'] (by decide) (by decide))

/-- C4: on pure black, both intensity functions return the fixed fallback 1.0
(and hence do not fail), for every target luminance and compensation
factor. -/
theorem C4_black_fallback (t f : ℚ) :
    calculateEmissiveIntensity "#000000" t = Except.ok 1 ∧
    calculateArtisticIntensity "#000000" t f = Except.ok 1 :=
  ⟨emissive_zero "#000000" t ⟨0, 0, 0⟩ hexToRgb_black lum_black,
   artistic_zero "#000000" t f ⟨0, 0, 0⟩ hexToRgb_black lum_black⟩

/-- C3: for a valid color with nonzero base luminance,
`calculateEmissiveIntensity` returns exactly `targetLuminance / baseLuminance`;
in particular `"#ff00ff"` at 1.05 gives `2625/712 ≈ 3.69` and `"#ffff00"` at
1.05 gives `5250/4639 ≈ 1.13`, both within 0.01 of the quoted values. -/
theorem C3_full_compensation (c : String) (t : ℚ) (rgb : Rgb)
    (h : hexToRgb c = Except.ok rgb) (hL : calculateLuminance rgb ≠ 0) :
    calculateEmissiveIntensity c t = Except.ok (t / calculateLuminance rgb) ∧
    calculateEmissiveIntensity "#ff00ff" 1.05 = Except.ok (2625/712) ∧
    |(2625/712 : ℚ) - 3.69| < 0.01 ∧
    calculateEmissiveIntensity "#ffff00" 1.05 = Except.ok (5250/4639) ∧
    |(5250/4639 : ℚ) - 1.13| < 0.01 := by
  refine ⟨emissive_ok c t rgb h hL, ?_, ?_, ?_, ?_⟩
  · exact emissive_eval "#ff00ff" 1.05 ⟨1, 0, 1⟩ (2625/712) hexToRgb_magenta
      (by rw [lum_magenta]; norm_num) (by rw [lum_magenta]; norm_num)
  · rw [abs_of_neg (by norm_num)]
    norm_num
  · exact emissive_eval "#ffff00" 1.05 ⟨1, 1, 0⟩ (5250/4639) hexToRgb_yellow
      (by rw [lum_yellow]; norm_num) (by rw [lum_yellow]; norm_num)
  · rw [abs_of_pos (by norm_num)]
    norm_num

/-- C3 witness: the quotient form instantiated at white with target 2. -/
theorem C3_witness :
    calculateEmissiveIntensity "#ffffff" 2 = Except.ok (2 / calculateLuminance ⟨1, 1, 1⟩) :=
  (C3_full_compensation "#ffffff" 2 ⟨1, 1, 1⟩ hexToRgb_white
    (by rw [lum_white]; norm_num)).1

/-- C5: for a valid color with nonzero base luminance,
`calculateArtisticIntensity c t f` equals exactly
`1 + (calculateEmissiveIntensity c t - 1) * f` for every factor `f`, with
`f = 0` giving exactly 1.0 and `f = 1` giving the full-compensation value. -/
theorem C5_linear_blend (c : String) (t f : ℚ) (rgb : Rgb) (e : ℚ)
    (h : hexToRgb c = Except.ok rgb) (hL : calculateLuminance rgb ≠ 0)
    (he : calculateEmissiveIntensity c t = Except.ok e) :
    calculateArtisticIntensity c t f = Except.ok (1 + (e - 1) * f) ∧
    calculateArtisticIntensity c t 0 = Except.ok 1 ∧
    calculateArtisticIntensity c t 1 = Except.ok e := by
  have he2 := emissive_ok c t rgb h hL
  rw [he] at he2
  have hee : e = t / calculateLuminance rgb := Except.ok.inj he2
  subst hee
  refine ⟨artistic_ok c t f rgb h hL, ?_, ?_⟩
  · rw [artistic_ok c t 0 rgb h hL]
    norm_num
  · rw [artistic_ok c t 1 rgb h hL]
    congr 1
    ring

/-- C5 witness: the blend identity at white, target 2, factor 3. -/
theorem C5_witness :
    calculateArtisticIntensity "#ffffff" 2 3 = Except.ok (1 + ((2 : ℚ) - 1) * 3) :=
  (C5_linear_blend "#ffffff" 2 3 ⟨1, 1, 1⟩ 2 hexToRgb_white
    (by rw [lum_white]; norm_num)
    (emissive_eval "#ffffff" 2 ⟨1, 1, 1⟩ 2 hexToRgb_white
      (by rw [lum_white]; norm_num) (by rw [lum_white]; norm_num))).1

/-- C6 counterexample: the claim promises a nonnegative result for EVERY
caller-supplied target luminance, but a negative target on a valid color
yields a negative intensity: white with target −1 returns exactly −1. -/
theorem C6_counterexample :
    calculateEmissiveIntensity "#ffffff" (-1) = Except.ok (-1) ∧ ((-1 : ℚ) < 0) :=
  ⟨emissive_eval "#ffffff" (-1) ⟨1, 1, 1⟩ (-1) hexToRgb_white
      (by rw [lum_white]; norm_num) (by rw [lum_white]; norm_num),
   by norm_num⟩

/-- C6 amended: for every valid hex color and every NONNEGATIVE target
luminance, the returned intensity is ≥ 0 (and the zero-luminance path returns
the fallback 1.0, which is also ≥ 0). -/
theorem C6_amended_nonneg (c : String) (t : ℚ) (rgb : Rgb) (v : ℚ)
    (h : hexToRgb c = Except.ok rgb) (ht : 0 ≤ t)
    (hv : calculateEmissiveIntensity c t = Except.ok v) : 0 ≤ v := by
  obtain ⟨hr0, hr1, hg0, hg1, hb0, hb1⟩ := hexToRgb_ok_bounds c rgb h
  have hL0 : 0 ≤ calculateLuminance rgb := by
    unfold calculateLuminance REC709_red REC709_green REC709_blue
    linarith
  by_cases hL : calculateLuminance rgb = 0
  · rw [emissive_zero c t rgb h hL] at hv
    rw [← Except.ok.inj hv]
    norm_num
  · rw [emissive_ok c t rgb h hL] at hv
    rw [← Except.ok.inj hv]
    exact div_nonneg ht hL0

/-- C6 witness: nonnegativity at white with target 2. -/
theorem C6_witness : (0 : ℚ) ≤ 2 / calculateLuminance ⟨1, 1, 1⟩ :=
  C6_amended_nonneg "#ffffff" 2 ⟨1, 1, 1⟩ (2 / calculateLuminance ⟨1, 1, 1⟩)
    hexToRgb_white (by norm_num)
    (emissive_ok "#ffffff" 2 ⟨1, 1, 1⟩ hexToRgb_white (by rw [lum_white]; norm_num))

/-- C2 counterexample: the input `"ff00f#f"` has no leading hash and is not
six hex digits (the source's own regex check rejects it as written), so the
claim says `hexToRgb` must raise on it — but the code removes the FIRST hash
occurrence anywhere (JS `replace` with a string pattern), so the call
succeeds. -/
theorem C2_counterexample :
    "ff00f#f".data.head? ≠ some '#' ∧
    validSixHex "ff00f#f".data = false ∧
    hexToRgb "ff00f#f" = Except.ok ⟨1, 0, 1⟩ :=
  ⟨by decide, by decide,
   hexToRgb_eval "ff00f#f" ['f','f','0','0','f','f'] (by decide) (by decide) 255 0 255
     (by decide) (by decide) (by decide) _ _ _ (by norm_num) (by norm_num) (by norm_num)⟩

/-- C2 amended: `hexToRgb` raises `InvalidColorFormat` (modelled as
`Except.error` carrying the offending input) exactly on the inputs that,
after removing the FIRST occurrence of a hash anywhere in the string, are not
six hexadecimal digits; every raised error carries the original input. -/
theorem C2_amended_error_iff (s : String) :
    (hexToRgb s = Except.error s ↔ validSixHex (replaceFirstHash s.data) = false) ∧
    (∀ e, hexToRgb s = Except.error e → e = s) := by
  have hbody : hexToRgb s =
      if validSixHex (replaceFirstHash s.data) then
        Except.ok (parseSix (replaceFirstHash s.data))
      else Except.error s := rfl
  rw [hbody]
  cases hv : validSixHex (replaceFirstHash s.data) with
  | false =>
    simp only [Bool.false_eq_true, if_false]
    exact ⟨trivial, fun e he => (Except.error.inj he).symm⟩
  | true =>
    simp only [if_true]
    refine ⟨⟨fun hc => absurd hc (fun h => Except.noConfusion h), fun hc => Bool.noConfusion hc⟩,
      fun e he => absurd he (fun h => Except.noConfusion h)⟩

/-- C2 witness: the amended characterization applied to the concrete invalid
input `"zz"`. -/
theorem C2_witness : hexToRgb "zz" = Except.error "zz" :=
  ((C2_amended_error_iff "zz").1).mpr (by decide)

/-- C8: for every string of exactly six hex digits (any letter case), the
decoder succeeds on the string itself and on the same string with a leading
hash, producing in both cases the triple obtained by parsing the 2-digit
red, green, blue channels base 16 and dividing by 255, with every component
in `[0, 1]`. -/
theorem C8_six_hex_digits (s : String) (hv : validSixHex s.data = true) :
    hexToRgb s = Except.ok (parseSix s.data) ∧
    hexToRgb ("#" ++ s) = Except.ok (parseSix s.data) ∧
    0 ≤ (parseSix s.data).r ∧ (parseSix s.data).r ≤ 1 ∧
    0 ≤ (parseSix s.data).g ∧ (parseSix s.data).g ≤ 1 ∧
    0 ≤ (parseSix s.data).b ∧ (parseSix s.data).b ≤ 1 := by
  have hnh : ∀ c ∈ s.data, c ≠ '#' := by
    intro c hc
    have hall : (hexDigitVal c).isSome = true := by
      unfold validSixHex at hv
      rw [Bool.and_eq_true] at hv
      exact List.all_eq_true.mp hv.2 c hc
    exact hexDigit_ne_hash c hall
  have h1 : hexToRgb s = Except.ok (parseSix s.data) := by
    unfold hexToRgb
    rw [replaceFirstHash_of_no_hash s.data hnh, if_pos hv]
  have h2 : hexToRgb ("#" ++ s) = Except.ok (parseSix s.data) := by
    unfold hexToRgb
    have hd : ("#" ++ s).data = '#' :: s.data := String.data_append "#" s
    have hrep : replaceFirstHash ('#' :: s.data) = s.data := by
      unfold replaceFirstHash
      rw [if_pos rfl]
    rw [hd, hrep, if_pos hv]
  obtain ⟨b1, b2, b3, b4, b5, b6⟩ := parseSix_bounds s.data
  exact ⟨h1, h2, b1, b2, b3, b4, b5, b6⟩

/-- C8 witness: the decode theorem applied to the concrete string
`"00ff00"`. -/
theorem C8_witness : hexToRgb ("#" ++ "00ff00") = Except.ok (parseSix "00ff00".data) :=
  (C8_six_hex_digits "00ff00" (by decide)).2.1

/-- C1 counterexample: for magenta and cyan at target 2, the gap between the
two `calculateArtisticIntensity` outputs GROWS as the factor goes from 0.3 to
0.7, refuting the claim that it strictly decreases. -/
theorem C1_counterexample :
    calculateArtisticIntensity "#ff00ff" 2 (3/10) = Except.ok (1249/445) ∧
    calculateArtisticIntensity "#00ffff" 2 (3/10) = Except.ok (57559/39370) ∧
    calculateArtisticIntensity "#ff00ff" 2 (7/10) = Except.ok (2321/445) ∧
    calculateArtisticIntensity "#00ffff" 2 (7/10) = Except.ok (81811/39370) ∧
    |(1249/445 : ℚ) - 57559/39370| < |(2321/445 : ℚ) - 81811/39370| := by
  refine ⟨?_, ?_, ?_, ?_, ?_⟩
  · exact artistic_eval "#ff00ff" 2 (3/10) ⟨1, 0, 1⟩ (1249/445) hexToRgb_magenta
      (by rw [lum_magenta]; norm_num) (by rw [lum_magenta]; norm_num)
  · exact artistic_eval "#00ffff" 2 (3/10) ⟨0, 1, 1⟩ (57559/39370) hexToRgb_cyan
      (by rw [lum_cyan]; norm_num) (by rw [lum_cyan]; norm_num)
  · exact artistic_eval "#ff00ff" 2 (7/10) ⟨1, 0, 1⟩ (2321/445) hexToRgb_magenta
      (by rw [lum_magenta]; norm_num) (by rw [lum_magenta]; norm_num)
  · exact artistic_eval "#00ffff" 2 (7/10) ⟨0, 1, 1⟩ (81811/39370) hexToRgb_cyan
      (by rw [lum_cyan]; norm_num) (by rw [lum_cyan]; norm_num)
  · rw [abs_of_pos (by norm_num), abs_of_pos (by norm_num)]
    norm_num

/-- C1 amended: for two valid colors with different nonzero base luminances
and any target, the gap between the EFFECTIVE luminances (base luminance
times the artistic-compensation output) strictly decreases as the
compensation factor increases within `[0, 1]`; the raw output gap itself
grows with the factor, as the counterexample shows. -/
theorem C1_amended_effective_gap (c1 c2 : String) (t f1 f2 : ℚ) (rgb1 rgb2 : Rgb)
    (a1 a2 b1 b2 : ℚ)
    (h1 : hexToRgb c1 = Except.ok rgb1) (h2 : hexToRgb c2 = Except.ok rgb2)
    (hL1 : calculateLuminance rgb1 ≠ 0) (hL2 : calculateLuminance rgb2 ≠ 0)
    (hne : calculateLuminance rgb1 ≠ calculateLuminance rgb2)
    (hf1 : 0 ≤ f1) (hf12 : f1 < f2) (hf2 : f2 ≤ 1)
    (ha1 : calculateArtisticIntensity c1 t f1 = Except.ok a1)
    (ha2 : calculateArtisticIntensity c2 t f1 = Except.ok a2)
    (hb1 : calculateArtisticIntensity c1 t f2 = Except.ok b1)
    (hb2 : calculateArtisticIntensity c2 t f2 = Except.ok b2) :
    |calculateLuminance rgb1 * b1 - calculateLuminance rgb2 * b2| <
      |calculateLuminance rgb1 * a1 - calculateLuminance rgb2 * a2| := by
  have va1 : a1 = 1 + (t / calculateLuminance rgb1 - 1) * f1 :=
    Except.ok.inj (ha1.symm.trans (artistic_ok c1 t f1 rgb1 h1 hL1))
  have va2 : a2 = 1 + (t / calculateLuminance rgb2 - 1) * f1 :=
    Except.ok.inj (ha2.symm.trans (artistic_ok c2 t f1 rgb2 h2 hL2))
  have vb1 : b1 = 1 + (t / calculateLuminance rgb1 - 1) * f2 :=
    Except.ok.inj (hb1.symm.trans (artistic_ok c1 t f2 rgb1 h1 hL1))
  have vb2 : b2 = 1 + (t / calculateLuminance rgb2 - 1) * f2 :=
    Except.ok.inj (hb2.symm.trans (artistic_ok c2 t f2 rgb2 h2 hL2))
  subst va1 va2 vb1 vb2
  have key : ∀ f : ℚ,
      calculateLuminance rgb1 * (1 + (t / calculateLuminance rgb1 - 1) * f) -
        calculateLuminance rgb2 * (1 + (t / calculateLuminance rgb2 - 1) * f) =
      (calculateLuminance rgb1 - calculateLuminance rgb2) * (1 - f) := by
    intro f
    field_simp
    ring
  rw [key f1, key f2, abs_mul, abs_mul]
  rw [abs_of_nonneg (by linarith : (0 : ℚ) ≤ 1 - f2),
    abs_of_pos (by linarith : (0 : ℚ) < 1 - f1)]
  exact mul_lt_mul_of_pos_left (by linarith)
    (abs_pos.mpr (sub_ne_zero.mpr hne))

/-- C1 witness: the amended theorem applied to magenta and cyan at target 2
with factors 0.3 and 0.7. -/
theorem C1_witness :
    |calculateLuminance ⟨1, 0, 1⟩ * (2321/445) - calculateLuminance ⟨0, 1, 1⟩ * (81811/39370)| <
      |calculateLuminance ⟨1, 0, 1⟩ * (1249/445) - calculateLuminance ⟨0, 1, 1⟩ * (57559/39370)| :=
  C1_amended_effective_gap "#ff00ff" "#00ffff" 2 (3/10) (7/10) ⟨1, 0, 1⟩ ⟨0, 1, 1⟩
    (1249/445) (57559/39370) (2321/445) (81811/39370)
    hexToRgb_magenta hexToRgb_cyan
    (by rw [lum_magenta]; norm_num) (by rw [lum_cyan]; norm_num)
    (by rw [lum_magenta, lum_cyan]; norm_num)
    (by norm_num) (by norm_num) (by norm_num)
    (artistic_eval "#ff00ff" 2 (3/10) ⟨1, 0, 1⟩ (1249/445) hexToRgb_magenta
      (by rw [lum_magenta]; norm_num) (by rw [lum_magenta]; norm_num))
    (artistic_eval "#00ffff" 2 (3/10) ⟨0, 1, 1⟩ (57559/39370) hexToRgb_cyan
      (by rw [lum_cyan]; norm_num) (by rw [lum_cyan]; norm_num))
    (artistic_eval "#ff00ff" 2 (7/10) ⟨1, 0, 1⟩ (2321/445) hexToRgb_magenta
      (by rw [lum_magenta]; norm_num) (by rw [lum_magenta]; norm_num))
    (artistic_eval "#00ffff" 2 (7/10) ⟨0, 1, 1⟩ (81811/39370) hexToRgb_cyan
      (by rw [lum_cyan]; norm_num) (by rw [lum_cyan]; norm_num))

end HiddenGalaxy
